import Mathlib

set_option autoImplicit false

namespace EagleEyed

/- ===== Frontend: src/frontend/src/pages/SheetsView.tsx ===== -/

namespace SheetsView

/-- The transaction row shape read by the sheets view (the Transaction
interface in SheetsView.tsx). Numeric JS fields are modelled as integers in
hundredths of a rupee. -/
structure Transaction where
  date : String
  description : String
  debit : Option Int := none
  credit : Option Int := none
  balance : Option Int := none
  is_flagged : Option Bool := none
  flag_reason : Option String := none
deriving DecidableEq, Repr

/-- Outcome of one fetchDocumentTransactions call: the transactionsMap state
afterwards, and whether a GET transactions/extract/document request went out. -/
structure FetchResult where
  transactionsMap : List (String × List Transaction)
  requested : Bool
deriving DecidableEq, Repr

/-- Embeds fetchDocumentTransactions of SheetsView.tsx. The first argument is
the transactionsMap React state, keyed by document id. The JS guard is the
truthiness of transactionsMap[documentId]; every value this function ever
stores is an array and arrays are truthy in JS, so the guard is exactly key
presence. The response argument is the outcome of the GET request: an error,
or a payload whose transactions field may be absent - the code stores
res.data.transactions, falling back to the empty list, and on a caught error
it stores the empty list. -/
def fetchDocumentTransactions (transactionsMap : List (String × List Transaction))
    (documentId : String) (response : Except String (Option (List Transaction))) :
    FetchResult :=
  match transactionsMap.lookup documentId with
  | some _ => { transactionsMap := transactionsMap, requested := false }
  | none =>
    match response with
    | Except.ok payload =>
        { transactionsMap := (documentId, payload.getD []) :: transactionsMap,
          requested := true }
    | Except.error _ =>
        { transactionsMap := (documentId, []) :: transactionsMap, requested := true }

end SheetsView

/- ===== Frontend: src/frontend/src/pages/AcceptInvite.tsx ===== -/

namespace AcceptInvite

/-- The client record fields read by handleAccept from the GET clients
response. -/
structure Client where
  id : String
  assigned_ca_id : Option String
deriving DecidableEq, Repr

/-- A navigation performed through navigate(...). -/
inductive Nav
  | login (url : String)
  | documents (clientId : String)
deriving DecidableEq, Repr

/-- Observable outcome of one handleAccept call: where it navigated, the error
message it set, and which requests it issued. -/
structure AcceptResult where
  nav : Option Nav
  errorMsg : Option String
  acceptInvitePosted : Bool
  clientFetched : Bool
deriving DecidableEq, Repr

/-- Embeds handleAccept of AcceptInvite.tsx. The user role is an option since
the code reads it with optional chaining; clientFetch is the outcome of the
GET clients request and acceptPost the outcome of the POST
clients/accept-invite request, both modelled as Except since the code catches
their failures and stores the error message. -/
def handleAccept (isAuthenticated : Bool) (role : Option String) (userId : String)
    (token : String) (resourceId : String) (clientFetch : Except String Client)
    (acceptPost : Except String Unit) : AcceptResult :=
  if isAuthenticated = false then
    { nav := some (Nav.login ("/login?returnUrl=/share/invite/" ++ token)),
      errorMsg := none, acceptInvitePosted := false, clientFetched := false }
  else if role ≠ some "ca" then
    { nav := none,
      errorMsg := some "Only Chartered Accountants can accept client invitations.",
      acceptInvitePosted := false, clientFetched := false }
  else
    match clientFetch with
    | Except.error e =>
        { nav := none, errorMsg := some e, acceptInvitePosted := false,
          clientFetched := true }
    | Except.ok client =>
        if client.assigned_ca_id = some userId then
          { nav := some (Nav.documents resourceId), errorMsg := none,
            acceptInvitePosted := false, clientFetched := true }
        else
          match acceptPost with
          | Except.ok _ =>
              { nav := some (Nav.documents resourceId), errorMsg := none,
                acceptInvitePosted := true, clientFetched := true }
          | Except.error e =>
              { nav := none, errorMsg := some e, acceptInvitePosted := true,
                clientFetched := true }

end AcceptInvite

/- ===== Frontend: src/frontend/src/pages/DocumentUpload.tsx ===== -/

namespace DocumentUpload

/-- The status field of an uploaded-file entry. -/
inductive FileStatus
  | analyzing
  | verified
  | rejected
deriving DecidableEq, Repr

/-- One entry of the files state in DocumentUpload.tsx; the File object is
identified by its name. -/
structure UploadedFile where
  name : String
  category : String
  status : FileStatus
  path : String
  extractedText : Option String
deriving DecidableEq, Repr

/-- Outcome of one processFiles call: the files state once all uploads have
settled, the number of POST documents/upload requests issued, and whether the
guard alert fired. -/
structure ProcessResult where
  files : List UploadedFile
  uploadRequests : Nat
  alerted : Bool
deriving DecidableEq, Repr

/-- The entry appended for one new file, carrying the status it holds once its
upload request has settled: verified on success, rejected on failure
(uploadOk gives the outcome of the request for each file). -/
def uploadEntry (selectedCategory : String) (extractedText : Option String)
    (uploadOk : String → Bool) (name : String) : UploadedFile :=
  { name := name, category := selectedCategory,
    status := if uploadOk name then FileStatus.verified else FileStatus.rejected,
    path := "Client/" ++ selectedCategory ++ "/" ++ name,
    extractedText := extractedText }

/-- Embeds processFiles of DocumentUpload.tsx. The JS guards are the falsiness
of selectedCategory and selectedClientId, i.e. emptiness of those strings.
When both guards pass, the new files are appended to the list and the loop
issues one upload request per file. -/
def processFiles (selectedCategory selectedClientId : String)
    (files : List UploadedFile) (newFiles : List String)
    (extractedText : Option String) (uploadOk : String → Bool) : ProcessResult :=
  if selectedCategory = "" then
    { files := files, uploadRequests := 0, alerted := true }
  else if selectedClientId = "" then
    { files := files, uploadRequests := 0, alerted := true }
  else
    { files := files ++ newFiles.map (uploadEntry selectedCategory extractedText uploadOk),
      uploadRequests := newFiles.length, alerted := false }

end DocumentUpload

/- ===== Backend data model =====
The backend Python services are not under src; the data model below follows
the declarations that are: the Supabase schema (src/unnamed/part_005) and the
pydantic models in src/AI_CONTEXT/backend_spec.md. -/

namespace Backend

/-- The type column of a transaction: credit or debit. -/
inductive Direction
  | credit
  | debit
deriving DecidableEq, Repr

/-- The mode column of a transaction (UPI, CASH, NEFT, POS, CARD). -/
inductive PaymentMode
  | upi
  | cash
  | neft
  | pos
  | card
deriving DecidableEq, Repr

/-- A transactions row, following the transactions table of the schema and
transaction_models.py. DECIMAL(15,2) amounts are integers in hundredths,
DECIMAL(3,2) confidences naturals in hundredths, dates day numbers. The type
column is named txType because type is reserved in Lean. -/
structure Txn where
  id : String
  sheet_id : String
  client_id : String
  date : Nat
  description : String
  amount : Int
  txType : Direction
  vendor : Option String := none
  gstin : Option String := none
  mode : Option PaymentMode := none
  ledger : String := "Uncategorized"
  ai_confidence : Option Nat := none
  deleted_at : Option Nat := none
deriving DecidableEq, Repr

/-- A recycle_bin row, following the recycle_bin table of the schema. -/
structure RecycleBinEntry where
  original_table : String
  original_id : String
  deleted_at : Nat
  expires_at : Nat
deriving DecidableEq, Repr

/-- The persistent state touched by the transaction lifecycle operations. -/
structure DbState where
  transactions : List Txn
  recycle_bin : List RecycleBinEntry
deriving DecidableEq, Repr

/-- Recycle-bin retention, 30 days, per the schema comment on recycle_bin. -/
def retentionDays : Nat := 30

/-- The transaction lifecycle operations the repository documents
(src/unnamed/part_005): TransactionService create, update and bulk ledger
update, delete and restore; RecycleBinService soft delete, restore and
permanent delete. -/
inductive DbOp
  | createTx (t : Txn)
  | updateLedger (id : String) (newLedger : String) (conf : Option Nat)
  | softDeleteTx (id : String) (now : Nat)
  | restoreTx (id : String)
  | permanentDeleteTx (id : String)

/-- One step of the documented lifecycle: create inserts a row; updateLedger
rewrites the ledger and ai_confidence columns of the targeted row in place
(the schema installs a BEFORE UPDATE trigger on transactions for exactly such
updates); softDeleteTx sets deleted_at and records a recycle-bin entry that
expires after the retention period; restoreTx clears deleted_at and drops the
bin entry; permanentDeleteTx removes the row and its bin entry physically
(the recycle_bin RLS policy grants this DELETE). -/
def applyOp (s : DbState) : DbOp → DbState
  | DbOp.createTx t => { s with transactions := s.transactions ++ [t] }
  | DbOp.updateLedger id cat conf =>
      { s with transactions := s.transactions.map (fun t =>
          if t.id = id then { t with ledger := cat, ai_confidence := conf } else t) }
  | DbOp.softDeleteTx id now =>
      { transactions := s.transactions.map (fun t =>
          if t.id = id then { t with deleted_at := some now } else t),
        recycle_bin :=
          { original_table := "transactions", original_id := id, deleted_at := now,
            expires_at := now + retentionDays } :: s.recycle_bin }
  | DbOp.restoreTx id =>
      { transactions := s.transactions.map (fun t =>
          if t.id = id then { t with deleted_at := none } else t),
        recycle_bin := s.recycle_bin.filter (fun e =>
          decide (¬(e.original_table = "transactions" ∧ e.original_id = id))) }
  | DbOp.permanentDeleteTx id =>
      { transactions := s.transactions.filter (fun t => decide (t.id ≠ id)),
        recycle_bin := s.recycle_bin.filter (fun e =>
          decide (¬(e.original_table = "transactions" ∧ e.original_id = id))) }

/- ===== Normalization Service (spec section 4.1) ===== -/

/-- Modelled from the spec: the canonical form of a raw row once the
Normalization Service has parsed date and amount and inferred the direction
(the ingestion services under backend/services are not in src). The dedup key
is computed over exactly these fields. -/
structure NormalizedRow where
  sheet_id : String
  date : Nat
  descriptionNorm : String
  amount : Int
  direction : Direction
deriving DecidableEq, Repr

/-- Modelled from the spec: dedup_key is a stable hash of (sheet_id, date,
normalized description, amount, direction); the hash is modelled as the tuple
itself, a collision-free stable hash. -/
def dedupKey (r : NormalizedRow) : String × Nat × String × Int × Direction :=
  (r.sheet_id, r.date, r.descriptionNorm, r.amount, r.direction)

/-- The dedup key a stored Transaction carries, over the same fields. -/
def txKey (t : Txn) : String × Nat × String × Int × Direction :=
  (t.sheet_id, t.date, t.description, t.amount, t.txType)

/-- Modelled from the spec: the Transaction the Normalization Service creates
for a normalized row. -/
def rowToTxn (r : NormalizedRow) (freshId : String) : Txn :=
  { id := freshId, sheet_id := r.sheet_id, client_id := "", date := r.date,
    description := r.descriptionNorm, amount := r.amount, txType := r.direction }

/-- Outcome of one upsert: the store afterwards, the transaction id returned,
and whether a row was inserted. -/
structure UpsertResult where
  store : List Txn
  txnId : String
  inserted : Bool
deriving Repr

/-- Modelled from the spec: the Normalization Service upsert - if a Transaction
with the same dedup_key already exists for the sheet, the call is a no-op that
returns the existing id; otherwise it inserts a fresh Transaction (the
transaction creation service is not in src). -/
def upsertTransaction (store : List Txn) (r : NormalizedRow) (freshId : String) :
    UpsertResult :=
  match store.find? (fun t => decide (txKey t = dedupKey r)) with
  | some t => { store := store, txnId := t.id, inserted := false }
  | none => { store := rowToTxn r freshId :: store, txnId := freshId, inserted := true }

/-- Number of stored Transactions carrying the dedup key of the row r. -/
def keyCount (store : List Txn) (r : NormalizedRow) : Nat :=
  (store.filter (fun t => decide (txKey t = dedupKey r))).length

/- ===== Red-flag engine (spec section 4.4) ===== -/

/-- Red-flag severity, following the red_flags table check constraint. -/
inductive Severity
  | low
  | medium
  | high
  | critical
deriving DecidableEq, Repr

/-- Red-flag types, following redflag_models.py: large_cash,
duplicate_invoice, gst_mismatch, missing_invoice, suspicious_vendor, anomaly. -/
inductive FlagType
  | large_cash
  | duplicate_invoice
  | gst_mismatch
  | missing_invoice
  | suspicious_vendor
  | anomaly
deriving DecidableEq, Repr

/-- A red_flags row, following the schema and redflag_models.py. -/
structure RedFlag where
  transaction_id : String
  flag_type : FlagType
  severity : Severity
  message : String
  resolved : Bool := false
deriving DecidableEq, Repr

/-- Configuration of the anomaly detectors: the per-transaction cash limit
(default 10000.00, the 40A(3) threshold, in hundredths) and the near-duplicate
time window in days. -/
structure AnomalyConfig where
  cashLimit : Int := 1000000
  dupWindowDays : Nat := 7
deriving Repr

/-- Modelled from the spec: the cash-limit checker
(red_flag_engine/cash_transaction_checker.py is not in src) - cash-mode
payments exceeding the disallowance threshold are flagged with severity high. -/
def cash_transaction_checker (cfg : AnomalyConfig) (t : Txn) : List RedFlag :=
  if t.mode = some PaymentMode.cash ∧ cfg.cashLimit < t.amount then
    [{ transaction_id := t.id, flag_type := FlagType.large_cash,
       severity := Severity.high,
       message := "Cash payment exceeds the per-transaction cash limit" }]
  else []

/-- Modelled from the spec: the near-duplicate detector
(red_flag_engine/duplicate_detector.py is not in src) - another transaction in
the neighborhood with the same amount and direction, a similar description and
a date inside the configured window, severity medium. Description similarity
is modelled as equality of the normalized description. -/
def duplicate_detector (cfg : AnomalyConfig) (t : Txn) (neighborhood : List Txn) :
    List RedFlag :=
  if neighborhood.any (fun u => decide (u.id ≠ t.id ∧ u.amount = t.amount ∧
      u.txType = t.txType ∧ u.description = t.description ∧
      u.date ≤ t.date + cfg.dupWindowDays ∧ t.date ≤ u.date + cfg.dupWindowDays)) then
    [{ transaction_id := t.id, flag_type := FlagType.duplicate_invoice,
       severity := Severity.medium,
       message := "Possible duplicate of another transaction in the same period" }]
  else []

/-- Modelled from the spec: GSTIN well-formedness used by the suspicious-vendor
detector - 15 characters, a two-digit state code, the rest upper-case letters
or digits. -/
def validGstin (g : String) : Bool :=
  let cs := g.toList
  decide (cs.length = 15) && cs.all (fun c => c.isUpper || c.isDigit) &&
    (cs.take 2).all Char.isDigit

/-- Modelled from the spec: the suspicious-vendor detector
(red_flag_engine/suspicious_vendor_detector.py is not in src) - a malformed
GSTIN is severity high, a vendor absent from the known-vendor list severity
medium. -/
def suspicious_vendor_detector (known : List String) (t : Txn) : List RedFlag :=
  (match t.gstin with
   | some g =>
       if validGstin g then []
       else [{ transaction_id := t.id, flag_type := FlagType.suspicious_vendor,
               severity := Severity.high, message := "Malformed GSTIN" }]
   | none => []) ++
  (match t.vendor with
   | some v =>
       if known.contains v then []
       else [{ transaction_id := t.id, flag_type := FlagType.suspicious_vendor,
               severity := Severity.medium,
               message := "Vendor not on the known-vendor list" }]
   | none => [])

/-- Modelled from the spec: scan(transaction, neighborhood), the composition of
the independent detectors of the red-flag engine. -/
def scan (cfg : AnomalyConfig) (known : List String) (t : Txn)
    (neighborhood : List Txn) : List RedFlag :=
  duplicate_detector cfg t neighborhood ++ cash_transaction_checker cfg t ++
    suspicious_vendor_detector known t

/-- The cash-limit flags among a scan result. -/
def cashFlags (flags : List RedFlag) : List RedFlag :=
  flags.filter (fun f => decide (f.flag_type = FlagType.large_cash))

/- ===== Ledger classification engine (spec section 4.2) ===== -/

/-- The tier that produced a classification. -/
inductive Tier
  | rule
  | similarity
  | model
deriving DecidableEq, Repr

/-- Modelled from the spec: a ClassificationResult - the code keeps only a flat
ledger column on the transaction row; this record follows the spec data model
that the classifier emits and the compliance engine consumes. Confidence is in
hundredths, matching the DECIMAL(3,2) ai_confidence column. -/
structure ClassificationResult where
  transaction_id : String
  version : Nat
  ledger_category : String
  confidence : Nat
  tier : Tier
  rationale : String
  needs_review : Bool := false
  superseded_by : Option Nat := none
deriving DecidableEq, Repr

/-- The classifier thresholds, in hundredths: T1 default 0.90, T2 default
0.75, T3 default 0.50. -/
structure ClassifierConfig where
  t1 : Nat := 90
  t2 : Nat := 75
  t3 : Nat := 50
deriving Repr

/-- Outcome of one classify call. -/
structure ClassifyOutcome where
  category : String
  confidence : Nat
  tier : Tier
  rationale : String
  needs_review : Bool
deriving DecidableEq, Repr

/-- Modelled from the spec: the model-assisted tier
(ledger_classifier/ledger_classifier_service.py is not in src) - the external
service response is accepted even when the service is unavailable (none) or
its confidence is below T3; in those cases the outcome is tagged needs_review
instead of being rejected. -/
def modelTier (cfg : ClassifierConfig) (modelResp : Option (String × Nat × String)) :
    ClassifyOutcome :=
  match modelResp with
  | some (cat, conf, why) =>
      { category := cat, confidence := conf, tier := Tier.model, rationale := why,
        needs_review := decide (conf < cfg.t3) }
  | none =>
      { category := "Uncategorized", confidence := 0, tier := Tier.model,
        rationale := "classification service unavailable", needs_review := true }

/-- Modelled from the spec: the similarity tier - accept the top
nearest-neighbor match when its similarity is at least T2, otherwise fall
through to the model tier. -/
def similarityTier (cfg : ClassifierConfig) (simTop : Option (String × Nat))
    (modelResp : Option (String × Nat × String)) : ClassifyOutcome :=
  match simTop with
  | some (cat, sim) =>
      if cfg.t2 ≤ sim then
        { category := cat, confidence := sim, tier := Tier.similarity,
          rationale := "nearest previously classified transaction",
          needs_review := false }
      else modelTier cfg modelResp
  | none => modelTier cfg modelResp

/-- Modelled from the spec: classify(transaction), the three-tier cascade -
ruleHit is the outcome of the deterministic rule tier (category and declared
confidence), simTop the top similarity match, modelResp the external-service
response (none when unavailable). A rule hit at or above T1 returns
immediately with tier rule; otherwise the similarity tier is consulted, and
only when both are below threshold the model tier. -/
def classify (cfg : ClassifierConfig) (ruleHit : Option (String × Nat))
    (simTop : Option (String × Nat)) (modelResp : Option (String × Nat × String)) :
    ClassifyOutcome :=
  match ruleHit with
  | some (cat, conf) =>
      if cfg.t1 ≤ conf then
        { category := cat, confidence := conf, tier := Tier.rule,
          rationale := "rule-table match", needs_review := false }
      else similarityTier cfg simTop modelResp
  | none => similarityTier cfg simTop modelResp

/- ===== Compliance rule engine (spec section 4.3) ===== -/

/-- Whether a rule found itself applicable; unknown is reserved for rules
whose evaluation threw. -/
inductive Applicability
  | applicable
  | notApplicable
  | unknown
deriving DecidableEq, Repr

/-- A ComplianceFinding, following the spec data model; ruleError marks a
ComplianceRuleError finding recorded for a rule that threw. -/
structure ComplianceFinding where
  transaction_id : String
  classification_version : Nat
  rule_id : String
  applicable : Applicability
  section_reference : String
  reason : String
  ruleError : Bool := false
deriving DecidableEq, Repr

/-- Modelled from the spec: a compliance rule - id, applicability predicate,
evaluation function and section reference; the evaluation may throw, modelled
as Except (the compliance_engine package is not in src). -/
structure ComplianceRule where
  id : String
  section_reference : String
  applicability_predicate : Txn → ClassificationResult → Bool
  evaluation_function : Txn → ClassificationResult → Except String (Applicability × String)

/-- Outcome of one evaluate call: the findings and whether the transaction was
marked for manual review. -/
structure EngineResult where
  findings : List ComplianceFinding
  needs_manual_review : Bool
deriving DecidableEq, Repr

/-- The finding recorded for one applicable rule: its evaluation result, or a
ComplianceRuleError finding with applicable unknown when the rule throws; the
boolean reports whether the transaction must be sent to manual review. -/
def runRule (t : Txn) (c : ClassificationResult) (r : ComplianceRule) :
    ComplianceFinding × Bool :=
  match r.evaluation_function t c with
  | Except.ok (app, why) =>
      ({ transaction_id := t.id, classification_version := c.version,
         rule_id := r.id, applicable := app,
         section_reference := r.section_reference, reason := why }, false)
  | Except.error e =>
      ({ transaction_id := t.id, classification_version := c.version,
         rule_id := r.id, applicable := Applicability.unknown,
         section_reference := r.section_reference, reason := e,
         ruleError := true }, true)

/-- Runs every applicable rule of the table in order, never dropping one. -/
def evaluateRules (t : Txn) (c : ClassificationResult) :
    List ComplianceRule → List (ComplianceFinding × Bool)
  | [] => []
  | r :: rs =>
      if r.applicability_predicate t c then runRule t c r :: evaluateRules t c rs
      else evaluateRules t c rs

/-- Modelled from the spec: evaluate(transaction, classification) over a rule
table - a pure function of the transaction, the active classification and the
rule-table version (the compliance_engine package is not in src). -/
def evaluate (ruleTable : List ComplianceRule) (t : Txn) (c : ClassificationResult) :
    EngineResult :=
  { findings := (evaluateRules t c ruleTable).map Prod.fst,
    needs_manual_review := (evaluateRules t c ruleTable).any Prod.snd }

/- ===== Concrete sample data used by the witnesses ===== -/

/-- A normalized raw row: the Office Rent debit of the quick-start CSV sample. -/
def sampleRow : NormalizedRow :=
  { sheet_id := "s1", date := 45306, descriptionNorm := "office rent",
    amount := 5000000, direction := Direction.debit }

/-- A cash debit above the default cash limit. -/
def txCashBig : Txn :=
  { id := "t9", sheet_id := "s1", client_id := "c1", date := 45306,
    description := "office rent", amount := 5000000, txType := Direction.debit,
    vendor := some "ABC Landlords", mode := some PaymentMode.cash }

/-- A cash debit below the default cash limit. -/
def txCashSmall : Txn :=
  { id := "t10", sheet_id := "s1", client_id := "c1", date := 45306,
    description := "stationery", amount := 50000, txType := Direction.debit,
    mode := some PaymentMode.cash }

/-- A stored transaction classified Utilities, start state of the lifecycle
counterexamples. -/
def txU : Txn :=
  { id := "t1", sheet_id := "s1", client_id := "c1", date := 45306,
    description := "office rent", amount := 5000000, txType := Direction.debit,
    ledger := "Utilities" }

/-- A database state holding exactly txU and an empty recycle bin. -/
def dbS0 : DbState := { transactions := [txU], recycle_bin := [] }

/-- An active classification for the sample transaction. -/
def sampleClassification : ClassificationResult :=
  { transaction_id := "t1", version := 1, ledger_category := "Rent",
    confidence := 95, tier := Tier.rule, rationale := "rule-table match" }

/-- Modelled from the spec: a representative rule-table entry, the 40A(3) cash
disallowance check. -/
def disallowance40A3 : ComplianceRule :=
  { id := "sec40A3_cash", section_reference := "40A(3)",
    applicability_predicate := fun t _ => decide (t.txType = Direction.debit),
    evaluation_function := fun t _ =>
      if t.mode = some PaymentMode.cash ∧ 1000000 < t.amount then
        Except.ok (Applicability.applicable, "cash payment above the 40A(3) limit")
      else Except.ok (Applicability.notApplicable, "within the cash limit") }

/-- Modelled from the spec: a rule whose evaluation throws, exercising the
ComplianceRuleError path. -/
def throwingRule : ComplianceRule :=
  { id := "tds_194c", section_reference := "194C",
    applicability_predicate := fun _ _ => true,
    evaluation_function := fun _ _ =>
      Except.error "vendor cumulative total unavailable" }

end Backend

/- ===== Theorems ===== -/

open Backend

/-- C10: the per-document transaction fetch is idempotent: when the document id
is already a key of transactionsMap the call issues no request and leaves the
map unchanged; a first fetch that fails stores the empty list under the key
while issuing the request; and after any first call a repeated call is a
no-op, so the extraction endpoint is hit at most once per document. -/
theorem fetchDocumentTransactions_idempotent
    (transactionsMap : List (String × List SheetsView.Transaction))
    (documentId : String)
    (response1 response2 : Except String (Option (List SheetsView.Transaction)))
    (e : String) :
    ((transactionsMap.lookup documentId).isSome = true →
      SheetsView.fetchDocumentTransactions transactionsMap documentId response1
        = { transactionsMap := transactionsMap, requested := false }) ∧
    (transactionsMap.lookup documentId = none →
      ((SheetsView.fetchDocumentTransactions transactionsMap documentId
          (Except.error e)).transactionsMap.lookup documentId = some [] ∧
       (SheetsView.fetchDocumentTransactions transactionsMap documentId
          (Except.error e)).requested = true)) ∧
    (SheetsView.fetchDocumentTransactions
        (SheetsView.fetchDocumentTransactions transactionsMap documentId
          response1).transactionsMap documentId response2
      = { transactionsMap :=
            (SheetsView.fetchDocumentTransactions transactionsMap documentId
              response1).transactionsMap,
          requested := false }) := by
  refine ⟨?_, ?_, ?_⟩
  · intro h
    obtain ⟨v, hv⟩ := Option.isSome_iff_exists.mp h
    simp [SheetsView.fetchDocumentTransactions, hv]
  · intro h
    simp [SheetsView.fetchDocumentTransactions, h, List.lookup]
  · cases h : transactionsMap.lookup documentId with
    | some v => simp [SheetsView.fetchDocumentTransactions, h]
    | none =>
      cases response1 with
      | ok payload => simp [SheetsView.fetchDocumentTransactions, h, List.lookup]
      | error e2 => simp [SheetsView.fetchDocumentTransactions, h, List.lookup]

/-- C10 witness: a concrete map with the key present is left unchanged with no
request, and a failed first fetch stores the empty list. -/
theorem fetchDocumentTransactions_idempotent_witness :
    SheetsView.fetchDocumentTransactions [("d1", [])] "d1" (Except.error "boom")
      = { transactionsMap := [("d1", [])], requested := false } ∧
    (SheetsView.fetchDocumentTransactions [] "d2"
        (Except.error "boom")).transactionsMap.lookup "d2" = some [] :=
  ⟨(fetchDocumentTransactions_idempotent [("d1", [])] "d1" (Except.error "boom")
      (Except.error "boom") "boom").1 (by decide),
   ((fetchDocumentTransactions_idempotent [] "d2" (Except.error "boom")
      (Except.error "boom") "boom").2.1 (by decide)).1⟩

/-- C8: the invite-acceptance role gate of handleAccept: an authenticated user
whose role is not ca gets the error message and no request at all, so no
client assignment changes; and when the fetched client is already assigned to
this CA the handler navigates to the document view of that client without
posting accept-invite. -/
theorem handleAccept_roleGate (role : Option String)
    (userId token resourceId : String)
    (clientFetch : Except String AcceptInvite.Client)
    (acceptPost : Except String Unit) (client : AcceptInvite.Client) :
    (role ≠ some "ca" →
      AcceptInvite.handleAccept true role userId token resourceId clientFetch acceptPost
        = { nav := none,
            errorMsg := some "Only Chartered Accountants can accept client invitations.",
            acceptInvitePosted := false, clientFetched := false }) ∧
    (role = some "ca" → clientFetch = Except.ok client →
      client.assigned_ca_id = some userId →
      AcceptInvite.handleAccept true role userId token resourceId clientFetch acceptPost
        = { nav := some (AcceptInvite.Nav.documents resourceId), errorMsg := none,
            acceptInvitePosted := false, clientFetched := true }) := by
  constructor
  · intro h
    simp [AcceptInvite.handleAccept, h]
  · intro hrole hfetch hca
    subst hrole; subst hfetch
    simp [AcceptInvite.handleAccept, hca]

/-- C8 witness: a client-role user gets the error and no request; a CA already
assigned to the client is sent to the documents with no accept-invite post. -/
theorem handleAccept_roleGate_witness :
    AcceptInvite.handleAccept true (some "client") "u1" "tok" "c1"
        (Except.ok { id := "c1", assigned_ca_id := none }) (Except.ok ())
      = { nav := none,
          errorMsg := some "Only Chartered Accountants can accept client invitations.",
          acceptInvitePosted := false, clientFetched := false } ∧
    AcceptInvite.handleAccept true (some "ca") "u1" "tok" "c1"
        (Except.ok { id := "c1", assigned_ca_id := some "u1" }) (Except.ok ())
      = { nav := some (AcceptInvite.Nav.documents "c1"), errorMsg := none,
          acceptInvitePosted := false, clientFetched := true } :=
  ⟨(handleAccept_roleGate (some "client") "u1" "tok" "c1"
      (Except.ok { id := "c1", assigned_ca_id := none }) (Except.ok ())
      { id := "c1", assigned_ca_id := none }).1 (by decide),
   (handleAccept_roleGate (some "ca") "u1" "tok" "c1"
      (Except.ok { id := "c1", assigned_ca_id := some "u1" }) (Except.ok ())
      { id := "c1", assigned_ca_id := some "u1" }).2 rfl rfl rfl⟩

/-- C9: the upload precondition guard of processFiles: with an empty selected
category or an empty selected client id the call alerts and returns, leaving
the uploaded-file list unchanged and issuing no upload request; with both
non-empty the new files are appended to the list and exactly one upload
request is issued per file. -/
theorem processFiles_guard (selectedCategory selectedClientId : String)
    (files : List DocumentUpload.UploadedFile) (newFiles : List String)
    (extractedText : Option String) (uploadOk : String → Bool) :
    (selectedCategory = "" →
      DocumentUpload.processFiles selectedCategory selectedClientId files newFiles
          extractedText uploadOk
        = { files := files, uploadRequests := 0, alerted := true }) ∧
    (selectedClientId = "" →
      DocumentUpload.processFiles selectedCategory selectedClientId files newFiles
          extractedText uploadOk
        = { files := files, uploadRequests := 0, alerted := true }) ∧
    (selectedCategory ≠ "" → selectedClientId ≠ "" →
      DocumentUpload.processFiles selectedCategory selectedClientId files newFiles
          extractedText uploadOk
        = { files := files ++ newFiles.map
              (DocumentUpload.uploadEntry selectedCategory extractedText uploadOk),
            uploadRequests := newFiles.length, alerted := false }) := by
  refine ⟨?_, ?_, ?_⟩
  · intro h; simp [DocumentUpload.processFiles, h]
  · intro h; simp [DocumentUpload.processFiles, h]
  · intro h1 h2; simp [DocumentUpload.processFiles, h1, h2]

/-- C9 witness: an empty category alerts and changes nothing; with both
selections set, one file is appended and one request goes out. -/
theorem processFiles_guard_witness :
    DocumentUpload.processFiles "" "client1" [] ["a.pdf"] none (fun _ => true)
      = { files := [], uploadRequests := 0, alerted := true } ∧
    DocumentUpload.processFiles "Bank" "client1" [] ["a.pdf"] none (fun _ => true)
      = { files := [] ++ ["a.pdf"].map
            (DocumentUpload.uploadEntry "Bank" none (fun _ => true)),
          uploadRequests := 1, alerted := false } :=
  ⟨(processFiles_guard "" "client1" [] ["a.pdf"] none (fun _ => true)).1 rfl,
   (processFiles_guard "Bank" "client1" [] ["a.pdf"] none (fun _ => true)).2.2
      (by decide) (by decide)⟩

/-- C4: compliance evaluation is deterministic - evaluate is a pure function
of the rule table, the transaction and the active classification, so two
calls with identical inputs and the same rule-table version return identical
ComplianceFindings. -/
theorem evaluate_deterministic (rt1 rt2 : List ComplianceRule)
    (t1 t2 : Txn) (c1 c2 : ClassificationResult)
    (hrt : rt1 = rt2) (ht : t1 = t2) (hc : c1 = c2) :
    evaluate rt1 t1 c1 = evaluate rt2 t2 c2 := by
  subst hrt ht hc
  rfl

/-- C4 witness: two calls on the sample rule table and transaction agree. -/
theorem evaluate_deterministic_witness :
    evaluate [disallowance40A3] txCashBig sampleClassification
      = evaluate [disallowance40A3] txCashBig sampleClassification :=
  evaluate_deterministic [disallowance40A3] [disallowance40A3]
    txCashBig txCashBig sampleClassification sampleClassification rfl rfl rfl

/-- C6: the classification cascade order and thresholds: a rule hit with
declared confidence at least T1 returns immediately with tier rule and the
outcome does not depend on the similarity or model inputs; when every rule
hit is below T1 and the top similarity match is at least T2 the similarity
result is returned with confidence equal to the similarity, independent of
the model input; and when both tiers are below threshold the model tier
answers. -/
theorem classify_cascade (cfg : ClassifierConfig) (cat : String) (conf : Nat)
    (ruleHit : Option (String × Nat)) (simTop : Option (String × Nat))
    (modelResp : Option (String × Nat × String)) :
    (cfg.t1 ≤ conf →
      (classify cfg (some (cat, conf)) simTop modelResp
          = { category := cat, confidence := conf, tier := Tier.rule,
              rationale := "rule-table match", needs_review := false } ∧
       ∀ simTop2 modelResp2,
         classify cfg (some (cat, conf)) simTop modelResp
           = classify cfg (some (cat, conf)) simTop2 modelResp2)) ∧
    ((∀ c k, ruleHit = some (c, k) → k < cfg.t1) →
      ∀ scat sim, simTop = some (scat, sim) → cfg.t2 ≤ sim →
        (classify cfg ruleHit simTop modelResp
            = { category := scat, confidence := sim, tier := Tier.similarity,
                rationale := "nearest previously classified transaction",
                needs_review := false } ∧
         ∀ modelResp2,
           classify cfg ruleHit simTop modelResp
             = classify cfg ruleHit simTop modelResp2)) ∧
    ((∀ c k, ruleHit = some (c, k) → k < cfg.t1) →
      (∀ scat sim, simTop = some (scat, sim) → sim < cfg.t2) →
      (classify cfg ruleHit simTop modelResp).tier = Tier.model) := by
  refine ⟨?_, ?_, ?_⟩
  · intro h
    refine ⟨by simp [classify, h], ?_⟩
    intro s2 m2
    simp [classify, h]
  · intro hrule scat sim hsim hth
    have hcl : ∀ mr, classify cfg ruleHit (some (scat, sim)) mr
        = { category := scat, confidence := sim, tier := Tier.similarity,
            rationale := "nearest previously classified transaction",
            needs_review := false } := by
      intro mr
      cases ruleHit with
      | none => simp [classify, similarityTier, hth]
      | some p =>
        obtain ⟨c, k⟩ := p
        have hk := hrule c k rfl
        simp [classify, similarityTier, Nat.not_le.mpr hk, hth]
    subst hsim
    exact ⟨hcl modelResp, fun m2 => (hcl modelResp).trans (hcl m2).symm⟩
  · intro hrule hsim
    have hmt : ∀ mr : Option (String × Nat × String),
        (modelTier cfg mr).tier = Tier.model := by
      intro mr
      cases mr with
      | none => rfl
      | some p =>
        obtain ⟨a, b, c2⟩ := p
        rfl
    have hst : (similarityTier cfg simTop modelResp).tier = Tier.model := by
      cases simTop with
      | none => simp [similarityTier, hmt]
      | some p =>
        obtain ⟨sc, sv⟩ := p
        have hv := hsim sc sv rfl
        simp [similarityTier, Nat.not_le.mpr hv, hmt]
    cases ruleHit with
    | none => simpa [classify] using hst
    | some p =>
      obtain ⟨c, k⟩ := p
      have hk := hrule c k rfl
      simpa [classify, Nat.not_le.mpr hk] using hst

/-- C6 witness: with the default thresholds a 0.95 rule hit answers at tier
rule regardless of the other inputs, a 0.80 similarity match answers at tier
similarity, and with neither the model tier answers. -/
theorem classify_cascade_witness :
    classify {} (some ("Rent", 95)) (some ("Utilities", 80))
        (some ("Travel", 60, "a model guess"))
      = { category := "Rent", confidence := 95, tier := Tier.rule,
          rationale := "rule-table match", needs_review := false } ∧
    classify {} none (some ("Utilities", 80)) none
      = { category := "Utilities", confidence := 80, tier := Tier.similarity,
          rationale := "nearest previously classified transaction",
          needs_review := false } ∧
    (classify {} none none none).tier = Tier.model :=
  ⟨((classify_cascade {} "Rent" 95 none (some ("Utilities", 80))
        (some ("Travel", 60, "a model guess"))).1 (by decide)).1,
   ((classify_cascade {} "x" 0 none (some ("Utilities", 80)) none).2.1
        (fun c k h => Option.noConfusion h) "Utilities" 80 rfl (by decide)).1,
   (classify_cascade {} "x" 0 none none none).2.2
        (fun c k h => Option.noConfusion h) (fun sc sv h => Option.noConfusion h)⟩

/-- C1: ingestion is idempotent: upserting the same normalized row twice is a
no-op on the second call - it returns the id produced by the first call and
inserts nothing - and a row whose dedup key is absent from the store ends up
stored exactly once. -/
theorem upsertTransaction_idempotent (store : List Txn) (r : NormalizedRow)
    (f1 f2 : String) :
    (upsertTransaction (upsertTransaction store r f1).store r f2).store
        = (upsertTransaction store r f1).store ∧
    (upsertTransaction (upsertTransaction store r f1).store r f2).txnId
        = (upsertTransaction store r f1).txnId ∧
    (upsertTransaction (upsertTransaction store r f1).store r f2).inserted = false ∧
    (keyCount store r = 0 → keyCount (upsertTransaction store r f1).store r = 1) := by
  cases h : store.find? (fun t => decide (txKey t = dedupKey r)) with
  | some t =>
    have hmem := List.mem_of_find?_eq_some h
    have hp := List.find?_some h
    have hcount : keyCount store r ≠ 0 := by
      intro h0
      have hft : t ∈ store.filter (fun t => decide (txKey t = dedupKey r)) :=
        List.mem_filter.mpr ⟨hmem, hp⟩
      rw [keyCount, List.length_eq_zero] at h0
      rw [h0] at hft
      exact List.not_mem_nil t hft
    refine ⟨?_, ?_, ?_, fun h0 => absurd h0 hcount⟩ <;>
      simp [upsertTransaction, h]
  | none =>
    have hpos : (fun t => decide (txKey t = dedupKey r)) (rowToTxn r f1) = true := by
      simp [txKey, rowToTxn, dedupKey]
    have hfind : List.find? (fun t => decide (txKey t = dedupKey r))
        (rowToTxn r f1 :: store) = some (rowToTxn r f1) :=
      List.find?_cons_of_pos store hpos
    refine ⟨?_, ?_, ?_, ?_⟩
    · simp [upsertTransaction, h, hfind]
    · simp [upsertTransaction, h, hfind]
      rfl
    · simp [upsertTransaction, h, hfind]
    · intro h0
      rw [keyCount] at h0
      simp [upsertTransaction, h, keyCount, List.filter_cons, hpos, h0]

/-- C1 witness: ingesting the sample row into an empty store, twice, leaves
exactly one Transaction with its dedup key. -/
theorem upsertTransaction_idempotent_witness :
    keyCount (upsertTransaction [] sampleRow "t1").store sampleRow = 1 :=
  (upsertTransaction_idempotent [] sampleRow "t1" "t2").2.2.2 (by decide)

/-- C3: cash-limit threshold correctness: for a cash-mode transaction the
anomaly scan yields exactly one cash-limit RedFlag, of severity high, when
the amount exceeds the configured limit, and none when the amount is at or
below the limit. -/
theorem cashLimit_threshold (cfg : AnomalyConfig) (known : List String)
    (t : Txn) (neighborhood : List Txn)
    (hmode : t.mode = some PaymentMode.cash) :
    (cfg.cashLimit < t.amount →
      cashFlags (scan cfg known t neighborhood)
        = [{ transaction_id := t.id, flag_type := FlagType.large_cash,
             severity := Severity.high,
             message := "Cash payment exceeds the per-transaction cash limit" }]) ∧
    (t.amount ≤ cfg.cashLimit → cashFlags (scan cfg known t neighborhood) = []) := by
  have happ : ∀ a b : List RedFlag, cashFlags (a ++ b) = cashFlags a ++ cashFlags b := by
    intro a b
    simp [cashFlags, List.filter_append]
  have hdup : cashFlags (duplicate_detector cfg t neighborhood) = [] := by
    rw [duplicate_detector]
    split <;> simp [cashFlags]
  have hven : cashFlags (suspicious_vendor_detector known t) = [] := by
    rw [cashFlags, List.filter_eq_nil_iff]
    intro f hf
    rw [suspicious_vendor_detector] at hf
    rcases List.mem_append.mp hf with hf2 | hf2 <;>
      (split at hf2 <;> try split at hf2) <;> simp_all
  constructor
  · intro hamt
    have hcash : cashFlags (cash_transaction_checker cfg t)
        = [{ transaction_id := t.id, flag_type := FlagType.large_cash,
             severity := Severity.high,
             message := "Cash payment exceeds the per-transaction cash limit" }] := by
      simp [cash_transaction_checker, hmode, hamt, cashFlags]
    simp [scan, happ, hdup, hven, hcash]
  · intro hamt
    have hcash : cashFlags (cash_transaction_checker cfg t) = [] := by
      have hno : ¬(t.mode = some PaymentMode.cash ∧ cfg.cashLimit < t.amount) := by
        intro hc
        exact absurd hc.2 (Int.not_lt.mpr hamt)
      simp [cash_transaction_checker, hno, cashFlags]
    simp [scan, happ, hdup, hven, hcash]

/-- C3 witness: the large cash debit is flagged exactly once at severity high,
the small one not at all. -/
theorem cashLimit_threshold_witness :
    cashFlags (scan {} [] txCashBig [])
      = [{ transaction_id := txCashBig.id, flag_type := FlagType.large_cash,
           severity := Severity.high,
           message := "Cash payment exceeds the per-transaction cash limit" }] ∧
    cashFlags (scan {} [] txCashSmall []) = [] :=
  ⟨(cashLimit_threshold {} [] txCashBig [] rfl).1 (by decide),
   (cashLimit_threshold {} [] txCashSmall [] rfl).2 (by decide)⟩

/-- Helper: an applicable rule of the table contributes its runRule entry to
the evaluation - nothing is filtered away. -/
theorem evaluateRules_mem_of_applicable (t : Txn) (c : ClassificationResult)
    (r : ComplianceRule) :
    ∀ rt : List ComplianceRule, r ∈ rt → r.applicability_predicate t c = true →
      runRule t c r ∈ evaluateRules t c rt := by
  intro rt
  induction rt with
  | nil =>
    intro hmem _
    exact absurd hmem (List.not_mem_nil r)
  | cons r0 rs ih =>
    intro hmem happ
    rcases List.mem_cons.mp hmem with hh | hh
    · subst hh
      simp only [evaluateRules, if_pos happ]
      exact List.mem_cons_self _ _
    · by_cases h0 : r0.applicability_predicate t c = true
      · simp only [evaluateRules, if_pos h0]
        exact List.mem_cons_of_mem _ (ih hh happ)
      · simp only [evaluateRules, if_neg h0]
        exact ih hh happ

/-- C7: no compliance rule is silently dropped: an applicable rule whose
evaluation throws contributes a ComplianceRuleError finding with applicable
unknown under its rule id, and the engine marks the transaction
needs_manual_review; and the model-assisted classification tier accepts an
unavailable service or a below-T3 confidence, tagging the outcome
needs_review rather than rejecting it. -/
theorem ruleError_not_dropped (rt : List ComplianceRule) (t : Txn)
    (c : ClassificationResult) (r : ComplianceRule) (e : String)
    (hmem : r ∈ rt) (happ : r.applicability_predicate t c = true)
    (herr : r.evaluation_function t c = Except.error e) :
    (∃ f, f ∈ (evaluate rt t c).findings ∧ f.rule_id = r.id ∧
        f.applicable = Applicability.unknown ∧ f.ruleError = true) ∧
    (evaluate rt t c).needs_manual_review = true ∧
    (∀ cfg : ClassifierConfig, (modelTier cfg none).needs_review = true) ∧
    (∀ (cfg : ClassifierConfig) (mcat : String) (mconf : Nat) (mwhy : String),
        mconf < cfg.t3 →
        (modelTier cfg (some (mcat, mconf, mwhy))).needs_review = true) := by
  have hrun := evaluateRules_mem_of_applicable t c r rt hmem happ
  have hrr : runRule t c r
      = ({ transaction_id := t.id, classification_version := c.version,
           rule_id := r.id, applicable := Applicability.unknown,
           section_reference := r.section_reference, reason := e,
           ruleError := true }, true) := by
    simp [runRule, herr]
  refine ⟨?_, ?_, ?_, ?_⟩
  · refine ⟨(runRule t c r).1, List.mem_map_of_mem Prod.fst hrun, ?_, ?_, ?_⟩ <;>
      rw [hrr]
  · apply List.any_eq_true.mpr
    refine ⟨runRule t c r, hrun, ?_⟩
    rw [hrr]
  · intro cfg
    rfl
  · intro cfg mcat mconf mwhy hlt
    simp [modelTier, hlt]

/-- C7 witness: on a table holding the 40A(3) rule and a throwing TDS rule,
the engine marks the transaction for manual review; the model tier with no
service response is tagged needs_review. -/
theorem ruleError_not_dropped_witness :
    (evaluate [disallowance40A3, throwingRule] txCashBig
        sampleClassification).needs_manual_review = true ∧
    (modelTier {} none).needs_review = true :=
  ⟨(ruleError_not_dropped [disallowance40A3, throwingRule] txCashBig
      sampleClassification throwingRule "vendor cumulative total unavailable"
      (List.mem_cons_of_mem _ (List.mem_cons_self _ _)) rfl rfl).2.1,
   (ruleError_not_dropped [disallowance40A3, throwingRule] txCashBig
      sampleClassification throwingRule "vendor cumulative total unavailable"
      (List.mem_cons_of_mem _ (List.mem_cons_self _ _)) rfl rfl).2.2.1 {}⟩

/-- C2 counterexample: the documented repository operations both edit a
Transaction after creation (a ledger update rewrites the row in place) and
physically delete one (the recycle-bin permanent delete that follows a soft
delete empties the store), so the append-only reading of the claim fails on
the code. -/
theorem appendOnly_counterexample :
    (applyOp (applyOp dbS0 (DbOp.softDeleteTx "t1" 200))
        (DbOp.permanentDeleteTx "t1")).transactions = [] ∧
    (applyOp dbS0 (DbOp.updateLedger "t1" "Rent" (some 95))).transactions
      ≠ dbS0.transactions := by
  decide

/-- C2 (amended): the ordinary removal path is soft and recoverable: a soft
delete keeps every transaction row, marks the target with deleted_at, and
records a recycle-bin entry expiring after the 30-day retention; ledger
updates and restores keep every row as well, so a row disappears only through
the explicit recycle-bin permanent delete. -/
theorem softDelete_is_soft (s : DbState) (id : String) (now : Nat)
    (cat : String) (conf : Option Nat) :
    ((applyOp s (DbOp.softDeleteTx id now)).transactions.map Txn.id
        = s.transactions.map Txn.id) ∧
    (∀ t, t ∈ (applyOp s (DbOp.softDeleteTx id now)).transactions → t.id = id →
        t.deleted_at = some now) ∧
    ({ original_table := "transactions", original_id := id, deleted_at := now,
       expires_at := now + retentionDays : RecycleBinEntry }
      ∈ (applyOp s (DbOp.softDeleteTx id now)).recycle_bin) ∧
    ((applyOp s (DbOp.updateLedger id cat conf)).transactions.map Txn.id
        = s.transactions.map Txn.id) ∧
    ((applyOp s (DbOp.restoreTx id)).transactions.map Txn.id
        = s.transactions.map Txn.id) := by
  have hmap : ∀ f : Txn → Txn, (∀ t, (f t).id = t.id) →
      ∀ l : List Txn, (l.map f).map Txn.id = l.map Txn.id := by
    intro f hf l
    induction l with
    | nil => rfl
    | cons a l ih => simp [hf, ih]
  refine ⟨?_, ?_, ?_, ?_, ?_⟩
  · exact hmap _ (fun t => by by_cases h : t.id = id <;> simp [h]) s.transactions
  · intro t ht hid
    rcases List.mem_map.mp ht with ⟨u, hu, hfu⟩
    subst hfu
    by_cases hcase : u.id = id
    · simp [hcase]
    · simp only [if_neg hcase] at hid ⊢
      exact absurd hid hcase
  · exact List.mem_cons_self _ _
  · exact hmap _ (fun t => by by_cases h : t.id = id <;> simp [h]) s.transactions
  · exact hmap _ (fun t => by by_cases h : t.id = id <;> simp [h]) s.transactions

/-- C2 witness: on the concrete state, the soft delete leaves the row present
with deleted_at set and files a bin entry expiring 30 days later. -/
theorem softDelete_is_soft_witness :
    ({ txU with deleted_at := some 200 } : Txn).deleted_at = some 200 ∧
    ({ original_table := "transactions", original_id := "t1", deleted_at := 200,
       expires_at := 230 : RecycleBinEntry }
      ∈ (applyOp dbS0 (DbOp.softDeleteTx "t1" 200)).recycle_bin) :=
  ⟨(softDelete_is_soft dbS0 "t1" 200 "Rent" none).2.1
      { txU with deleted_at := some 200 } (by decide) (by decide),
   (softDelete_is_soft dbS0 "t1" 200 "Rent" none).2.2.1⟩

/-- C5 counterexample: the code keeps classification as the single mutable
ledger column of the transaction row; reclassifying txU from Utilities to
Rent overwrites that column in place, after which no transaction carries the
previous classification - there is no version number, nothing monotonically
increasing, and the previous version is not retained. -/
theorem classificationHistory_counterexample :
    ((applyOp dbS0 (DbOp.updateLedger "t1" "Rent" (some 95))).transactions.all
        (fun t => decide (t.ledger ≠ "Utilities"))) = true ∧
    txU.ledger = "Utilities" ∧ txU ∈ dbS0.transactions := by
  decide

/-- C5 (amended): classification state is the single mutable (ledger,
ai_confidence) pair of a transaction row: a reclassification rewrites exactly
the targeted row in place - every row keeps its identity, the target carries
the new category and confidence, untargeted rows are untouched and the
recycle bin is unaffected - so a transaction always has exactly one current
classification and no superseded version is kept. -/
theorem updateLedger_in_place (s : DbState) (id cat : String) (conf : Option Nat) :
    ((applyOp s (DbOp.updateLedger id cat conf)).transactions.map Txn.id
        = s.transactions.map Txn.id) ∧
    (∀ t, t ∈ s.transactions → t.id = id →
        ({ t with ledger := cat, ai_confidence := conf } : Txn)
          ∈ (applyOp s (DbOp.updateLedger id cat conf)).transactions) ∧
    (∀ t, t ∈ s.transactions → t.id ≠ id →
        t ∈ (applyOp s (DbOp.updateLedger id cat conf)).transactions) ∧
    ((applyOp s (DbOp.updateLedger id cat conf)).recycle_bin = s.recycle_bin) := by
  have hmap : ∀ f : Txn → Txn, (∀ t, (f t).id = t.id) →
      ∀ l : List Txn, (l.map f).map Txn.id = l.map Txn.id := by
    intro f hf l
    induction l with
    | nil => rfl
    | cons a l ih => simp [hf, ih]
  refine ⟨?_, ?_, ?_, ?_⟩
  · exact hmap _ (fun t => by by_cases h : t.id = id <;> simp [h]) s.transactions
  · intro t ht hid
    have hmm := List.mem_map_of_mem
      (fun t : Txn => if t.id = id then { t with ledger := cat, ai_confidence := conf } else t) ht
    simpa [applyOp, hid] using hmm
  · intro t ht hid
    have hmm := List.mem_map_of_mem
      (fun t : Txn => if t.id = id then { t with ledger := cat, ai_confidence := conf } else t) ht
    simpa [applyOp, hid] using hmm
  · rfl

/-- C5 witness: on the concrete state, the reclassified row with the new
category and confidence is what the store holds. -/
theorem updateLedger_in_place_witness :
    ({ txU with ledger := "Rent", ai_confidence := some 95 } : Txn)
      ∈ (applyOp dbS0 (DbOp.updateLedger "t1" "Rent" (some 95))).transactions :=
  (updateLedger_in_place dbS0 "t1" "Rent" (some 95)).2.1 txU (by decide) (by decide)

end EagleEyed
